import Mathlib

/-!
Verification of obs-copilot: dock panel, text source, streaming service and module entry point

A shallow embedding of the plugin's four translation units

* `src/copilot-dock.cpp`      (the dock widget and its two slots),
* `src/copilot-source.cpp`    (the text source and its descriptor),
* `src/copilot-service.cpp`   (the streaming service and its descriptor),
* `src/obs-copilot-plugin.cpp` (the module entry point),

followed by the properties of the specification that were checked against them.

Conventions of the embedding.

* A C++ object is a structure; a member function takes the object first and returns the
  object after the call. Calls into the host are returned as a list, oldest first.
* `QString`, `std::string` and `const char *` values are modelled by their character
  content (a `String`); `std::string::length` counts bytes, so it is `String.utf8ByteSize`.
* Host handles (`obs_source_t *`, `obs_service_t *`, `gs_font_t *`) are natural numbers
  standing for the pointer value.
-/

set_option linter.unusedVariables false

namespace ObsCopilot

/-! ## Host and toolkit interface -/

/-- Text returned by the locale lookup of the host. The locale table belongs to the host
installation and the plugin never inspects the text it gets back, so the result is kept
symbolic: it records the key that was looked up. -/
structure ModuleText where
  key : String
deriving DecidableEq

/-- Host lookup function: the locale text for key val. -/
def obs_module_text (val : String) : ModuleText :=
  ⟨val⟩

/-- Settings object of the host: the string-valued fields it holds, first match wins. -/
structure obs_data_t where
  items : List (String × String)
deriving DecidableEq

/-- Host accessor for string fields; a field that is not set reads as the empty string. -/
def obs_data_get_string (data : obs_data_t) (name : String) : String :=
  match data.items.lookup name with
  | some v => v
  | none => ""

/-- Pointer value of a host source handle. -/
abbrev obs_source_t := Nat

/-- Pointer value of a host service handle. -/
abbrev obs_service_t := Nat

/-- Pointer value of a font handle. -/
abbrev gs_font_t := Nat

/-- Pointer value of an effect handle. -/
abbrev gs_effect_t := Nat

/-- Output log widget: the paragraphs appended so far, oldest first. -/
structure QTextBrowser where
  paragraphs : List String
  readOnly : Bool
deriving DecidableEq

/-- Widget call setReadOnly. -/
def QTextBrowser.setReadOnly (w : QTextBrowser) (ro : Bool) : QTextBrowser :=
  { w with readOnly := ro }

/-- Widget call append: one new paragraph at the end. -/
def QTextBrowser.append (w : QTextBrowser) (text : String) : QTextBrowser :=
  { w with paragraphs := w.paragraphs ++ [text] }

/-- Input widget: the text currently held. -/
structure QTextEdit where
  plainText : String
deriving DecidableEq

/-- Widget call toPlainText. -/
def QTextEdit.toPlainText (w : QTextEdit) : String :=
  w.plainText

/-- Widget call clear. -/
def QTextEdit.clear (w : QTextEdit) : QTextEdit :=
  { w with plainText := "" }

/-- Widget call setPlainText; also what the user does by typing into the field. -/
def QTextEdit.setPlainText (w : QTextEdit) (text : String) : QTextEdit :=
  { w with plainText := text }

/-- Trigger button with its label. -/
structure QPushButton where
  text : ModuleText
deriving DecidableEq

/-- Status indicator: every message passed to showMessage so far, oldest first. The bar
displays the last one. -/
structure QStatusBar where
  messages : List ModuleText
deriving DecidableEq

/-- Widget call showMessage: the given message replaces the displayed one. -/
def QStatusBar.showMessage (w : QStatusBar) (message : ModuleText) : QStatusBar :=
  { w with messages := w.messages ++ [message] }

/-- Widget call currentMessage: the message on display, none before the first showMessage. -/
def QStatusBar.currentMessage (w : QStatusBar) : Option ModuleText :=
  w.messages.getLast?

/-! ## copilot-dock.cpp -/

/-- Members of class CopilotDock (copilot-dock.h), with the window title of the base class. -/
structure CopilotDock where
  windowTitle : ModuleText
  responseDisplay : QTextBrowser
  commandInput : QTextEdit
  executeButton : QPushButton
  statusBar : QStatusBar
deriving DecidableEq

/-- Constructor CopilotDock::CopilotDock (copilot-dock.cpp 15-41). -/
def CopilotDock.new : CopilotDock :=
  let responseDisplay : QTextBrowser := { paragraphs := [], readOnly := false }
  let responseDisplay := responseDisplay.setReadOnly true
  let commandInput : QTextEdit := { plainText := "" }
  let executeButton : QPushButton := { text := obs_module_text "Dock.ExecuteButton" }
  let statusBar : QStatusBar := { messages := [] }
  { windowTitle := obs_module_text "Dock.Title"
    responseDisplay := responseDisplay
    commandInput := commandInput
    executeButton := executeButton
    statusBar := statusBar.showMessage (obs_module_text "Dock.StatusReady") }

/-- Slot CopilotDock::displayResponse (copilot-dock.cpp 43-48). -/
def CopilotDock.displayResponse (d : CopilotDock) (response : String) (isError : Bool) :
    CopilotDock :=
  let d := { d with responseDisplay := d.responseDisplay.append response }
  let message := obs_module_text (if isError then "Dock.StatusError" else "Dock.StatusReady")
  { d with statusBar := d.statusBar.showMessage message }

/-- Slot CopilotDock::onExecuteClicked (copilot-dock.cpp 50-59). -/
def CopilotDock.onExecuteClicked (d : CopilotDock) : CopilotDock :=
  let command := d.commandInput.toPlainText
  let d := { d with commandInput := d.commandInput.clear }
  let message := obs_module_text "Dock.StatusProcessing"
  let d := { d with statusBar := d.statusBar.showMessage message }
  d.displayResponse ("Command executed: " ++ command) false

/-- The three status values of the dock, named after the locale keys the code shows. -/
inductive Status where
  | Ready
  | Processing
  | Error
deriving DecidableEq

/-- Message the status bar shows for each status value. -/
def Status.message : Status → ModuleText
  | Status.Ready => obs_module_text "Dock.StatusReady"
  | Status.Processing => obs_module_text "Dock.StatusProcessing"
  | Status.Error => obs_module_text "Dock.StatusError"

/-- The dock shows status s: the message on display is the one of s. -/
def CopilotDock.hasStatus (d : CopilotDock) (s : Status) : Prop :=
  d.statusBar.currentMessage = some s.message

instance (d : CopilotDock) (s : Status) : Decidable (d.hasStatus s) := by
  unfold CopilotDock.hasStatus
  infer_instance

/-- The display log of the dock: the entries of the output widget, oldest first. -/
def CopilotDock.log (d : CopilotDock) : List String :=
  d.responseDisplay.paragraphs

/-- One trigger event: the user leaves text c in the input field and clicks the button,
which the constructor connected to onExecuteClicked. -/
def CopilotDock.trigger (d : CopilotDock) (c : String) : CopilotDock :=
  CopilotDock.onExecuteClicked { d with commandInput := d.commandInput.setPlainText c }

/-- A finite sequence of trigger events, one per input text, in order. -/
def CopilotDock.triggers (d : CopilotDock) (cs : List String) : CopilotDock :=
  cs.foldl CopilotDock.trigger d

/-- The operations of the dock that a caller can invoke. -/
inductive DockOp where
  | displayResponse (response : String) (isError : Bool)
  | onExecuteClicked
deriving DecidableEq

/-- Effect of one dock operation on the dock. -/
def DockOp.run (d : CopilotDock) : DockOp → CopilotDock
  | DockOp.displayResponse response isError => d.displayResponse response isError
  | DockOp.onExecuteClicked => d.onExecuteClicked

/-- What holds of the status bar along every run of trigger events: Ready is on display and
nothing but Ready and Processing was ever shown. -/
def CopilotDock.TriggerInv (d : CopilotDock) : Prop :=
  d.hasStatus Status.Ready ∧
    ∀ m ∈ d.statusBar.messages, m = Status.Ready.message ∨ m = Status.Processing.message

/-! ## copilot-source.cpp -/

/-- Colour constants of the graphics interface that the source uses. -/
inductive gs_color_t where
  | GS_WHITE
deriving DecidableEq

/-- Text flags of the graphics interface that the source uses. -/
inductive gs_text_flags_t where
  | GS_TEXT_DEFAULT
deriving DecidableEq

/-- Calls into the graphics interface of the host, with their arguments. -/
inductive GsCall where
  | gs_color (color : gs_color_t)
  | gs_draw_text (font : gs_font_t) (text : String) (length : Nat) (flags : gs_text_flags_t)
deriving DecidableEq

/-- Calls into the source interface of the host, with their arguments. -/
inductive SourceCall where
  | obs_source_media_updated (source : obs_source_t)
deriving DecidableEq

/-- Members of class CopilotSource (copilot-source.h). -/
structure CopilotSource where
  source : obs_source_t
  text : String
  font : gs_font_t
deriving DecidableEq

/-- Constructor CopilotSource::CopilotSource (copilot-source.cpp 57-62). The member font is
not written by the constructor; font is the indeterminate value it holds afterwards. -/
def CopilotSource.new (source : obs_source_t) (settings : obs_data_t) (font : gs_font_t) :
    CopilotSource :=
  { source := source, text := "Hello, Copilot!", font := font }

/-- Member CopilotSource::render (copilot-source.cpp 66-70): the graphics calls it makes. -/
def CopilotSource.render (self : CopilotSource) (effect : gs_effect_t) : List GsCall :=
  [GsCall.gs_color gs_color_t.GS_WHITE,
   GsCall.gs_draw_text self.font self.text self.text.utf8ByteSize
     gs_text_flags_t.GS_TEXT_DEFAULT]

/-- Member CopilotSource::get_width (copilot-source.cpp 72-75), a uint32_t. -/
def CopilotSource.get_width (self : CopilotSource) : Nat :=
  1920

/-- Member CopilotSource::get_height (copilot-source.cpp 77-80), a uint32_t. -/
def CopilotSource.get_height (self : CopilotSource) : Nat :=
  1080

/-- Member CopilotSource::update_text (copilot-source.cpp 82-86): the source after the call
and the host calls made. -/
def CopilotSource.update_text (self : CopilotSource) (new_text : String) :
    CopilotSource × List SourceCall :=
  let self := { self with text := new_text }
  (self, [SourceCall.obs_source_media_updated self.source])

/-- Kinds of source the host knows; the plugin uses one. -/
inductive obs_source_type where
  | OBS_SOURCE_TYPE_INPUT
deriving DecidableEq

/-- Output capability flags of a source; the plugin uses one. -/
inductive obs_source_output_flag where
  | OBS_SOURCE_VIDEO
deriving DecidableEq

/-- Callback table of a source type, the slots that copilot-source.cpp fills. A slot left
at nullptr is none. -/
structure obs_source_info where
  id : String
  type : obs_source_type
  output_flags : obs_source_output_flag
  get_name : Nat → ModuleText
  create : obs_data_t → obs_source_t → gs_font_t → CopilotSource
  destroy : CopilotSource → Unit
  video_render : CopilotSource → gs_effect_t → List GsCall
  get_width : CopilotSource → Nat
  get_height : CopilotSource → Nat
  get_properties : Option (CopilotSource → Unit)

/-- Static callback get_name (copilot-source.cpp 10-14). -/
def copilot_source.get_name (type_data : Nat) : ModuleText :=
  obs_module_text "Source.Name"

/-- Static callback create (copilot-source.cpp 16-19). -/
def copilot_source.create (settings : obs_data_t) (source : obs_source_t) (font : gs_font_t) :
    CopilotSource :=
  CopilotSource.new source settings font

/-- Static callback destroy (copilot-source.cpp 21-24). -/
def copilot_source.destroy (data : CopilotSource) : Unit :=
  ()

/-- Static callback video_render (copilot-source.cpp 26-29). -/
def copilot_source.video_render (data : CopilotSource) (effect : gs_effect_t) : List GsCall :=
  data.render effect

/-- Static callback get_width (copilot-source.cpp 31-34). -/
def copilot_source.get_width (data : CopilotSource) : Nat :=
  data.get_width

/-- Static callback get_height (copilot-source.cpp 36-39). -/
def copilot_source.get_height (data : CopilotSource) : Nat :=
  data.get_height

/-- Descriptor copilot_source_info (copilot-source.cpp 41-52). -/
def copilot_source_info : obs_source_info :=
  { id := "copilot_content_source"
    type := obs_source_type.OBS_SOURCE_TYPE_INPUT
    output_flags := obs_source_output_flag.OBS_SOURCE_VIDEO
    get_name := copilot_source.get_name
    create := copilot_source.create
    destroy := copilot_source.destroy
    video_render := copilot_source.video_render
    get_width := copilot_source.get_width
    get_height := copilot_source.get_height
    get_properties := none }

/-- The calls the host can make on a source instance after creating it. -/
inductive SourceOp where
  | update_text (new_text : String)
  | render (effect : gs_effect_t)
  | get_width
  | get_height
deriving DecidableEq

/-- Source instance after one call. -/
def SourceOp.run (s : CopilotSource) : SourceOp → CopilotSource
  | SourceOp.update_text new_text => (s.update_text new_text).1
  | SourceOp.render effect => s
  | SourceOp.get_width => s
  | SourceOp.get_height => s

/-- Source instance after a sequence of calls, in order. -/
def CopilotSource.runOps (s : CopilotSource) (ops : List SourceOp) : CopilotSource :=
  ops.foldl SourceOp.run s

/-! ## copilot-service.cpp -/

/-- Reads of the settings object made by the service: the accessor called, the key asked
for and the value the host returned. -/
inductive SettingsAccess where
  | obs_data_get_string (settings : obs_data_t) (name : String) (result : String)
deriving DecidableEq

/-- Members of class CopilotService (copilot-service.h). -/
structure CopilotService where
  service : obs_service_t
deriving DecidableEq

/-- Member CopilotService::update (copilot-service.cpp 61-65): the instance after the call
and the settings reads made. The local api_key is not used after it is read. -/
def CopilotService.update (self : CopilotService) (settings : obs_data_t) :
    CopilotService × List SettingsAccess :=
  let api_key := obs_data_get_string settings "api_key"
  (self, [SettingsAccess.obs_data_get_string settings "api_key" api_key])

/-- Constructor CopilotService::CopilotService (copilot-service.cpp 53-57). -/
def CopilotService.new (service : obs_service_t) (settings : obs_data_t) :
    CopilotService × List SettingsAccess :=
  let self : CopilotService := { service := service }
  self.update settings

/-- Kinds of text property the host knows; the plugin uses one. -/
inductive obs_text_type where
  | OBS_TEXT_PASSWORD
deriving DecidableEq

/-- One entry of a properties descriptor. -/
structure obs_property_t where
  name : String
  description : ModuleText
  type : obs_text_type
deriving DecidableEq

/-- Properties descriptor: its entries in the order they were added. -/
structure obs_properties_t where
  props : List obs_property_t
deriving DecidableEq

/-- Host call obs_properties_create. -/
def obs_properties_create : obs_properties_t :=
  { props := [] }

/-- Host call obs_properties_add_text. -/
def obs_properties_add_text (props : obs_properties_t) (name : String)
    (description : ModuleText) (type : obs_text_type) : obs_properties_t :=
  { props := props.props ++ [{ name := name, description := description, type := type }] }

/-- Callback table of a service type, the slots that copilot-service.cpp fills. A slot
left at nullptr is none. -/
structure obs_service_info where
  id : String
  get_name : Nat → ModuleText
  create : obs_data_t → obs_service_t → CopilotService × List SettingsAccess
  destroy : CopilotService → Unit
  update : CopilotService → obs_data_t → CopilotService × List SettingsAccess
  get_properties : CopilotService → obs_properties_t
  apply_encoder_settings : Option (CopilotService → Unit)
  get_url : Option (CopilotService → String)
  get_key : Option (CopilotService → String)

/-- Static callback get_name (copilot-service.cpp 8-12). -/
def copilot_service.get_name (type_data : Nat) : ModuleText :=
  obs_module_text "Service.Name"

/-- Static callback create (copilot-service.cpp 14-17). -/
def copilot_service.create (settings : obs_data_t) (service : obs_service_t) :
    CopilotService × List SettingsAccess :=
  CopilotService.new service settings

/-- Static callback destroy (copilot-service.cpp 19-22). -/
def copilot_service.destroy (data : CopilotService) : Unit :=
  ()

/-- Static callback update (copilot-service.cpp 24-27). -/
def copilot_service.update (data : CopilotService) (settings : obs_data_t) :
    CopilotService × List SettingsAccess :=
  data.update settings

/-- Static callback get_properties (copilot-service.cpp 29-36). -/
def copilot_service.get_properties (data : CopilotService) : obs_properties_t :=
  let props := obs_properties_create
  let props := obs_properties_add_text props "api_key" (obs_module_text "APIKey")
    obs_text_type.OBS_TEXT_PASSWORD
  props

/-- Descriptor copilot_service_info (copilot-service.cpp 38-48). -/
def copilot_service_info : obs_service_info :=
  { id := "obs_copilot_service"
    get_name := copilot_service.get_name
    create := copilot_service.create
    destroy := copilot_service.destroy
    update := copilot_service.update
    get_properties := copilot_service.get_properties
    apply_encoder_settings := none
    get_url := none
    get_key := none }

/-- Construct the service with settings S, then update it with the same S: the instance
left and all settings reads made, in order. -/
def CopilotService.constructThenUpdate (service : obs_service_t) (S : obs_data_t) :
    CopilotService × List SettingsAccess :=
  let created := copilot_service.create S service
  let updated := copilot_service.update created.1 S
  (updated.1, created.2 ++ updated.2)

/-! ## obs-copilot-plugin.cpp -/

/-- Calls into the host made while the module loads, with their arguments. -/
inductive LoadCall where
  | obs_register_source (info : obs_source_info)
  | obs_register_service (info : obs_service_info)
  | obs_frontend_add_dock (dock : CopilotDock)

/-- File-level variables of the plugin: the dock pointer of copilot-dock.cpp line 13,
none while it is nullptr. -/
structure Globals where
  copilotDock : Option CopilotDock
deriving DecidableEq

/-- Function init_copilot_dock (copilot-dock.cpp 61-65). -/
def init_copilot_dock (g : Globals) : Globals × List LoadCall :=
  let copilotDock := CopilotDock.new
  ({ g with copilotDock := some copilotDock }, [LoadCall.obs_frontend_add_dock copilotDock])

/-- Entry point obs_module_load (obs-copilot-plugin.cpp 10-16): the value returned, the
globals afterwards and the host calls made. The argument outcome is what the host answers
to each call; the code receives no answer and reads none. -/
def obs_module_load (outcome : LoadCall → Bool) (g : Globals) :
    Bool × Globals × List LoadCall :=
  let calls := [LoadCall.obs_register_source copilot_source_info]
  let calls := calls ++ [LoadCall.obs_register_service copilot_service_info]
  let dock := init_copilot_dock g
  (true, dock.1, calls ++ dock.2)

/-! ## Auxiliary facts -/

theorem QStatusBar.currentMessage_showMessage (w : QStatusBar) (m : ModuleText) :
    (w.showMessage m).currentMessage = some m := by
  simp [QStatusBar.showMessage, QStatusBar.currentMessage]

theorem CopilotDock.displayResponse_log (d : CopilotDock) (r : String) (e : Bool) :
    (d.displayResponse r e).log = d.log ++ [r] := by
  rfl

theorem CopilotDock.onExecuteClicked_log (d : CopilotDock) :
    d.onExecuteClicked.log = d.log ++ ["Command executed: " ++ d.commandInput.toPlainText] := by
  rfl

theorem CopilotDock.onExecuteClicked_messages (d : CopilotDock) :
    d.onExecuteClicked.statusBar.messages =
      d.statusBar.messages ++ [Status.Processing.message, Status.Ready.message] := by
  simp [CopilotDock.onExecuteClicked, CopilotDock.displayResponse, QStatusBar.showMessage,
    Status.message]

theorem CopilotDock.onExecuteClicked_status (d : CopilotDock) :
    d.onExecuteClicked.hasStatus Status.Ready := by
  simp [CopilotDock.hasStatus, QStatusBar.currentMessage, CopilotDock.onExecuteClicked_messages]

theorem CopilotDock.triggerInv_new : CopilotDock.new.TriggerInv := by
  refine ⟨by decide, ?_⟩
  intro m hm
  simp [CopilotDock.new, QStatusBar.showMessage] at hm
  exact Or.inl (by rw [hm]; rfl)

theorem CopilotDock.triggerInv_trigger (d : CopilotDock) (c : String) (h : d.TriggerInv) :
    (d.trigger c).TriggerInv := by
  refine ⟨CopilotDock.onExecuteClicked_status _, ?_⟩
  intro m hm
  rw [CopilotDock.trigger, CopilotDock.onExecuteClicked_messages] at hm
  simp only [List.mem_append, List.mem_cons, List.mem_singleton, List.not_mem_nil,
    or_false] at hm
  rcases hm with hm | hm | hm
  · exact h.2 m hm
  · exact Or.inr hm
  · exact Or.inl hm

theorem CopilotDock.triggerInv_triggers (cs : List String) :
    ∀ d : CopilotDock, d.TriggerInv → (d.triggers cs).TriggerInv := by
  induction cs with
  | nil => intro d h; exact h
  | cons c cs ih =>
    intro d h
    exact ih (d.trigger c) (CopilotDock.triggerInv_trigger d c h)

/-! ## Dock panel -/

/-- C1: for every dock state and every text held in the input buffer, onExecuteClicked
leaves the display log equal to the old log followed by the single entry
"Command executed: " followed by that text, leaves the input buffer empty and leaves the
status Ready. With input "hello" the last entry is "Command executed: hello", with empty
input it is "Command executed: ". -/
theorem onExecuteClicked_echoes_input :
    (∀ (d : CopilotDock) (c : String),
      (d.trigger c).log = d.log ++ ["Command executed: " ++ c] ∧
      (d.trigger c).commandInput.toPlainText = "" ∧
      (d.trigger c).hasStatus Status.Ready) ∧
    (∀ d : CopilotDock,
      d.onExecuteClicked.log = d.log ++ ["Command executed: " ++ d.commandInput.toPlainText] ∧
      d.onExecuteClicked.commandInput.toPlainText = "" ∧
      d.onExecuteClicked.hasStatus Status.Ready) ∧
    (∀ d : CopilotDock, (d.trigger "hello").log.getLast? = some "Command executed: hello") ∧
    (∀ d : CopilotDock, (d.trigger "").log.getLast? = some "Command executed: ") := by
  refine ⟨fun d c => ⟨rfl, rfl, CopilotDock.onExecuteClicked_status _⟩,
    fun d => ⟨rfl, rfl, CopilotDock.onExecuteClicked_status _⟩, ?_, ?_⟩
  · intro d
    rw [CopilotDock.trigger, CopilotDock.onExecuteClicked_log]
    simp [QTextEdit.toPlainText, QTextEdit.setPlainText]
  · intro d
    rw [CopilotDock.trigger, CopilotDock.onExecuteClicked_log]
    simp [QTextEdit.toPlainText, QTextEdit.setPlainText]

/-- C8: the display log is append-only. For every dock state and every dock operation
(displayResponse with any response and flag, onExecuteClicked with any input text) the old
log is a prefix of the new log, the new log is the old log followed by one entry, and its
length is the old length plus one. -/
theorem display_log_append_only (d : CopilotDock) (op : DockOp) :
    d.log <+: (op.run d).log ∧
    (∃ entry : String, (op.run d).log = d.log ++ [entry]) ∧
    (op.run d).log.length = d.log.length + 1 := by
  cases op with
  | displayResponse response isError =>
    refine ⟨?_, ⟨response, rfl⟩, ?_⟩
    · rw [DockOp.run, CopilotDock.displayResponse_log]
      exact List.prefix_append _ _
    · rw [DockOp.run, CopilotDock.displayResponse_log]
      simp
  | onExecuteClicked =>
    refine ⟨?_, ⟨_, CopilotDock.onExecuteClicked_log d⟩, ?_⟩
    · rw [DockOp.run, CopilotDock.onExecuteClicked_log]
      exact List.prefix_append _ _
    · rw [DockOp.run, CopilotDock.onExecuteClicked_log]
      simp

/-- C9: starting from the freshly constructed dock (status Ready, empty log), after every
finite sequence of trigger events the status is Ready and is not Error, no Error message
was shown at any point of the run, and each single trigger writes the status exactly twice:
Processing, then Ready. -/
theorem trigger_path_stays_ready (cs : List String) :
    (CopilotDock.new.hasStatus Status.Ready ∧ CopilotDock.new.log = []) ∧
    (CopilotDock.new.triggers cs).hasStatus Status.Ready ∧
    ¬ (CopilotDock.new.triggers cs).hasStatus Status.Error ∧
    Status.Error.message ∉ (CopilotDock.new.triggers cs).statusBar.messages ∧
    (∀ (d : CopilotDock) (c : String), (d.trigger c).statusBar.messages =
      d.statusBar.messages ++ [Status.Processing.message, Status.Ready.message]) := by
  have hinv := CopilotDock.triggerInv_triggers cs CopilotDock.new CopilotDock.triggerInv_new
  refine ⟨⟨by decide, rfl⟩, hinv.1, ?_, ?_, ?_⟩
  · intro herr
    have hr := hinv.1
    unfold CopilotDock.hasStatus at herr hr
    rw [hr] at herr
    exact absurd (Option.some.inj herr) (by decide)
  · intro hmem
    rcases hinv.2 _ hmem with h | h
    · exact absurd h (by decide)
    · exact absurd h (by decide)
  · intro d c
    exact CopilotDock.onExecuteClicked_messages _

/-- C10: for every dock state, response text and flag, displayResponse leaves the status
Error exactly when the flag is true and Ready exactly when it is false, whatever the status
was before, appends the response unchanged to the display log and leaves the input buffer
unchanged. -/
theorem displayResponse_status_and_frame (d : CopilotDock) (r : String) (isError : Bool) :
    ((d.displayResponse r isError).hasStatus Status.Error ↔ isError = true) ∧
    ((d.displayResponse r isError).hasStatus Status.Ready ↔ isError = false) ∧
    (d.displayResponse r isError).log = d.log ++ [r] ∧
    (d.displayResponse r isError).commandInput = d.commandInput := by
  have hcur : (d.displayResponse r isError).statusBar.currentMessage =
      some (obs_module_text (if isError then "Dock.StatusError" else "Dock.StatusReady")) :=
    QStatusBar.currentMessage_showMessage _ _
  refine ⟨?_, ?_, rfl, rfl⟩
  · unfold CopilotDock.hasStatus
    rw [hcur]
    cases isError <;> decide
  · unfold CopilotDock.hasStatus
    rw [hcur]
    cases isError <;> decide

/-! ## Text source -/

/-- C2: for every source instance and every text T, the render call that follows
update_text(T) passes exactly T to the draw operation, with the byte length of T as the
drawn length, whatever text the source held before; the draw call is the only one that
carries text. -/
theorem render_after_update_text_draws_text (s : CopilotSource) (T : String)
    (effect : gs_effect_t) :
    (s.update_text T).1.render effect =
      [GsCall.gs_color gs_color_t.GS_WHITE,
       GsCall.gs_draw_text s.font T T.utf8ByteSize gs_text_flags_t.GS_TEXT_DEFAULT] ∧
    copilot_source_info.video_render (s.update_text T).1 effect =
      (s.update_text T).1.render effect ∧
    (s.update_text T).1.text = T := by
  exact ⟨rfl, rfl, rfl⟩

/-- C3: for every source state, also the one reached from it by any sequence of
update_text, render and size calls, get_width returns 1920 and get_height returns 1080,
through the member functions and through the descriptor callbacks alike; two sources that
differ in their stored text report the same size. -/
theorem get_width_height_constant (s : CopilotSource) (ops : List SourceOp) :
    (s.runOps ops).get_width = 1920 ∧ (s.runOps ops).get_height = 1080 ∧
    copilot_source_info.get_width (s.runOps ops) = 1920 ∧
    copilot_source_info.get_height (s.runOps ops) = 1080 ∧
    (∀ t : CopilotSource, t.get_width = s.get_width ∧ t.get_height = s.get_height) := by
  exact ⟨rfl, rfl, rfl, rfl, fun t => ⟨rfl, rfl⟩⟩

/-- C7: for every host handle and every settings object, a freshly created source stores
the default text "Hello, Copilot!" and keeps the given handle, the settings object has no
influence on the instance, and a render right after creation draws "Hello, Copilot!" with
length 15. -/
theorem new_source_has_default_text (source : obs_source_t) (settings : obs_data_t)
    (font : gs_font_t) (effect : gs_effect_t) :
    (CopilotSource.new source settings font).text = "Hello, Copilot!" ∧
    (CopilotSource.new source settings font).source = source ∧
    (∀ other : obs_data_t,
      CopilotSource.new source other font = CopilotSource.new source settings font) ∧
    (CopilotSource.new source settings font).render effect =
      [GsCall.gs_color gs_color_t.GS_WHITE,
       GsCall.gs_draw_text font "Hello, Copilot!" 15 gs_text_flags_t.GS_TEXT_DEFAULT] ∧
    copilot_source_info.create settings source font = CopilotSource.new source settings font := by
  refine ⟨rfl, rfl, fun other => rfl, ?_, rfl⟩
  have hlen : "Hello, Copilot!".utf8ByteSize = 15 := by decide
  simp [CopilotSource.render, CopilotSource.new, hlen]

/-! ## Streaming service -/

/-- C4: the code at settings holding api_key "a", handle 7. Construct-then-update reads
"a" twice and keeps neither read: the instance left holds the handle only, and it is the
very instance left for settings holding api_key "b". The claim, like the comment in
CopilotService::update ("Store the API key"), expects the string to be kept in the
instance; the code does not keep it. -/
theorem constructThenUpdate_drops_api_key :
    CopilotService.constructThenUpdate 7 ⟨[("api_key", "a")]⟩ =
      ({ service := 7 },
       [SettingsAccess.obs_data_get_string ⟨[("api_key", "a")]⟩ "api_key" "a",
        SettingsAccess.obs_data_get_string ⟨[("api_key", "a")]⟩ "api_key" "a"]) ∧
    (CopilotService.constructThenUpdate 7 ⟨[("api_key", "a")]⟩).1 =
      (CopilotService.constructThenUpdate 7 ⟨[("api_key", "b")]⟩).1 ∧
    obs_data_get_string ⟨[("api_key", "a")]⟩ "api_key" ≠
      obs_data_get_string ⟨[("api_key", "b")]⟩ "api_key" := by
  decide

/-- C6: for every service instance and settings object S, update(S) returns the instance
unchanged and its only settings access is one string read of key "api_key"; construction
likewise makes that single read and leaves an instance holding the given handle. -/
theorem update_only_reads_api_key (self : CopilotService) (S : obs_data_t)
    (service : obs_service_t) :
    (self.update S).1 = self ∧
    (self.update S).2 =
      [SettingsAccess.obs_data_get_string S "api_key" (obs_data_get_string S "api_key")] ∧
    (CopilotService.new service S).1 = { service := service } ∧
    (CopilotService.new service S).2 =
      [SettingsAccess.obs_data_get_string S "api_key" (obs_data_get_string S "api_key")] := by
  exact ⟨rfl, rfl, rfl, rfl⟩

/-! ## Module entry point -/

/-- C5: obs_module_load makes exactly three host calls, in this order: it registers the
source descriptor (id "copilot_content_source"), registers the service descriptor (id
"obs_copilot_service"), then adds the newly constructed dock to the host UI; it returns
true whatever the host answers to those calls, and the global dock pointer then holds the
dock that was added. -/
theorem obs_module_load_registers_in_order (outcome : LoadCall → Bool) (g : Globals) :
    (obs_module_load outcome g).2.2 =
      [LoadCall.obs_register_source copilot_source_info,
       LoadCall.obs_register_service copilot_service_info,
       LoadCall.obs_frontend_add_dock CopilotDock.new] ∧
    (obs_module_load outcome g).2.2.length = 3 ∧
    copilot_source_info.id = "copilot_content_source" ∧
    copilot_service_info.id = "obs_copilot_service" ∧
    (obs_module_load outcome g).1 = true ∧
    (obs_module_load outcome g).2.1.copilotDock = some CopilotDock.new := by
  exact ⟨rfl, rfl, rfl, rfl, rfl, rfl⟩

end ObsCopilot
